import Mathlib

/-!
Shallow embedding of `src/src/services/voiceService.ts` (genesis-os-73).

The file models the voice service's three-tier synthesis fallback
(`voiceService.synthesizeSpeech`), the browser capture pipeline
(`synthesizeWithBrowser`), the voice catalog accessor
(`voiceService.listVoices` with `getMockVoices`) and the recognition bridge
(`voiceService.recognizeSpeech`).

Network responses, environment variables and host capabilities are inputs of
the model (an `Env` record); the service's control flow over those inputs is
translated directly from the source.  Host API calls that cannot fail on the
code's inputs (constructing an audio context and recorder, reading an
in-memory blob as a data URL) are modelled as total: the captured recording
is an environment-supplied base64 payload depending only on the spoken text.
-/

namespace VoiceService

/-- Boolean test for `s.startsWith(q)` on JavaScript strings: the character
list of `q` is a list prefix of the character list of `s`. -/
def jsStartsWith (s q : String) : Bool :=
  List.isPrefixOf q.data s.data

/-- Boolean test for `s.includes(q)` on JavaScript strings: the character
list of `q` occurs contiguously inside the character list of `s`. -/
def jsIncludes (s q : String) : Bool :=
  decide (List.IsInfix q.data s.data)

/-- JavaScript truthiness of an optional string: `undefined` and the empty
string are falsy, every other string is truthy. -/
def jsTruthy : Option String → Bool
  | none => false
  | some s => !(s == "")

/-- The optional voice-shaping parameters of `synthesizeSpeech`
(voiceService.ts lines 13-18).  The numeric values are never inspected by the
service, only forwarded in the request body. -/
structure SynthOptions where
  stability : Option Int
  similarityBoost : Option Int
  style : Option Int
  speakerBoost : Option Bool
deriving DecidableEq, Repr

/-- The normalized request body sent to both remote providers
(voiceService.ts lines 23-30 and 58-65): the same field mapping is used for
Provider A and Provider B. -/
structure SynthRequest where
  text : String
  voice_id : Option String
  stability : Option Int
  similarity_boost : Option Int
  style : Option Int
  use_speaker_boost : Option Bool
deriving DecidableEq, Repr

/-- A remote provider's parsed response body: a success flag and an optional
audio payload (`{ success: bool, audio: string }`). -/
structure RemoteResponse where
  success : Bool
  audio : Option String
deriving DecidableEq, Repr

/-- The errors the service can reject with: the two capability rejections
(voiceService.ts lines 120 and 168) and the recognition session error
carrying the session's error code (line 137). -/
inductive VoiceError where
  | synthesisUnsupported
  | recognitionUnsupported
  | recognitionError (code : String)
deriving DecidableEq, Repr

/-- The environment a synthesis call runs in: how each remote endpoint
answers a given request (`none` models a thrown/rejected call), the two
configuration variables read at lines 44-45, whether `speechSynthesis`
exists in `window`, and the base64 payload the capture pipeline records for
a given text. -/
structure Env where
  apiResp : SynthRequest → Option RemoteResponse
  supabaseUrl : Option String
  supabaseAnonKey : Option String
  edgeResp : SynthRequest → Option RemoteResponse
  speechSynthesisSupported : Bool
  recordedB64 : String → String

/-- Builds the request body from the call's arguments with the source's
field mapping (voiceService.ts lines 23-30), `options?.field` optional
chaining included. -/
def mkRequest (text : String) (voiceId : Option String) (opts : Option SynthOptions) :
    SynthRequest :=
  { text := text
    voice_id := voiceId
    stability := Option.bind opts SynthOptions.stability
    similarity_boost := Option.bind opts SynthOptions.similarityBoost
    style := Option.bind opts SynthOptions.style
    use_speaker_boost := Option.bind opts SynthOptions.speakerBoost }

/-- Provider A tier (voiceService.ts lines 22-41): posts to
`/agent/voice/synthesize`; a thrown call is caught (line 39) and yields no
result; on `success && audio`, a payload not starting with `data:` is
wrapped as `data:audio/mpeg;base64,` + payload (line 35), a self-describing
payload is returned unchanged (line 37). -/
def tryProviderA (env : Env) (req : SynthRequest) : Option String :=
  match env.apiResp req with
  | none => none
  | some r =>
    match r.audio with
    | none => none
    | some audio =>
      if r.success && !(audio == "") then
        if !(jsStartsWith audio "data:") then
          some ("data:audio/mpeg;base64," ++ audio)
        else
          some audio
      else
        none

/-- Provider B configuration test (voiceService.ts lines 47-48): both the
endpoint and the credential are truthy and neither contains the placeholder
marker `your_`. -/
def supabaseConfigured (env : Env) : Bool :=
  jsTruthy env.supabaseUrl && jsTruthy env.supabaseAnonKey &&
    !(jsIncludes (Option.getD env.supabaseUrl "") "your_") &&
    !(jsIncludes (Option.getD env.supabaseAnonKey "") "your_")

/-- Provider B tier (voiceService.ts lines 49-76), reached only when the
configuration test passed: a thrown fetch or parse is caught (line 74); on
`success && audio` the payload is always wrapped as
`data:audio/mpeg;base64,` + payload (line 72) - unlike Provider A there is
no check whether it is already self-describing. -/
def tryProviderB (env : Env) (req : SynthRequest) : Option String :=
  match env.edgeResp req with
  | none => none
  | some r =>
    match r.audio with
    | none => none
    | some audio =>
      if r.success && !(audio == "") then
        some ("data:audio/mpeg;base64," ++ audio)
      else
        none

/-- The browser capture pipeline's result (voiceService.ts lines 165-233,
value view): rejects when `speechSynthesis` is absent from `window`
(lines 167-170), otherwise resolves with the recorded `audio/wav` blob read
as a data URL (lines 184-194). -/
def synthesizeWithBrowser (env : Env) (text : String) : Except VoiceError String :=
  if env.speechSynthesisSupported then
    Except.ok ("data:audio/wav;base64," ++ env.recordedB64 text)
  else
    Except.error VoiceError.synthesisUnsupported

/-- One tier of the fallback chain, used to record which tiers a call
invoked, in order. -/
inductive Tier where
  | providerA
  | providerB
  | browserCapture
deriving DecidableEq, Repr

/-- `voiceService.synthesizeSpeech` (voiceService.ts lines 10-85): Provider A
first; on its failure, Provider B only when configured; otherwise — and on
Provider B's failure — the browser capture pipeline, called with only the
text argument (line 80).  The second component records the tiers invoked. -/
def synthesizeSpeech (env : Env) (text : String) (voiceId : Option String)
    (opts : Option SynthOptions) : Except VoiceError String × List Tier :=
  match tryProviderA env (mkRequest text voiceId opts) with
  | some url => (Except.ok url, [Tier.providerA])
  | none =>
    if supabaseConfigured env then
      match tryProviderB env (mkRequest text voiceId opts) with
      | some url => (Except.ok url, [Tier.providerA, Tier.providerB])
      | none =>
        (synthesizeWithBrowser env text,
          [Tier.providerA, Tier.providerB, Tier.browserCapture])
    else
      (synthesizeWithBrowser env text, [Tier.providerA, Tier.browserCapture])

/-- The voice record of the catalog (voiceService.ts lines 272-278). -/
structure Voice where
  voice_id : String
  name : String
  preview_url : Option String
  description : Option String
  category : Option String
deriving DecidableEq, Repr

/-- The built-in fallback catalog (voiceService.ts lines 238-269), verbatim. -/
def getMockVoices : List Voice :=
  [ { voice_id := "21m00Tcm4TlvDq8ikWAM"
      name := "Rachel"
      preview_url := some "https://example.com/voice-preview.mp3"
      description := some "A friendly and professional female voice"
      category := some "premade" }
  , { voice_id := "AZnzlk1XvdvUeBnXmlld"
      name := "Domi"
      preview_url := some "https://example.com/voice-preview.mp3"
      description := some "An authoritative and clear male voice"
      category := some "premade" }
  , { voice_id := "EXAVITQu4vr4xnSDxMaL"
      name := "Bella"
      preview_url := some "https://example.com/voice-preview.mp3"
      description := some "A warm and engaging female voice"
      category := some "premade" }
  , { voice_id := "ErXwobaYiN019PkySvjV"
      name := "Antoni"
      preview_url := some "https://example.com/voice-preview.mp3"
      description := some "A confident and articulate male voice"
      category := some "premade" } ]

/-- `voiceService.listVoices` (voiceService.ts lines 90-109).  The input
models the remote call: `none` = the request threw (caught at line 99);
`some none` = response without a `voices` field; `some (some l)` = response
with a voices array `l`.  The source keeps `l` only when
`voices && voices.length > 0` (line 96). -/
def listVoices (resp : Option (Option (List Voice))) : List Voice :=
  match resp with
  | none => getMockVoices
  | some none => getMockVoices
  | some (some l) => if 0 < l.length then l else getMockVoices

/-- The recognition session configuration applied at voiceService.ts
lines 126-128. -/
structure RecognitionConfig where
  lang : String
  interimResults : Bool
  maxAlternatives : Nat
deriving DecidableEq, Repr

/-- What the host recognition session reports: a result event carrying the
first final transcript (`event.results[0][0].transcript`, line 131), or an
error event carrying a code (line 136). -/
inductive RecognitionOutcome where
  | result (transcript : String)
  | error (code : String)
deriving DecidableEq, Repr

/-- The environment of a recognition call: whether `SpeechRecognition` or
`webkitSpeechRecognition` exists (line 117), and what the session reports
once started. -/
structure RecognitionEnv where
  available : Bool
  outcome : RecognitionOutcome
deriving DecidableEq, Repr

/-- `voiceService.recognizeSpeech` (voiceService.ts lines 114-142).  The
second component is the created session's configuration, `none` when the
call rejected before constructing a session (lines 119-122). -/
def recognizeSpeech (env : RecognitionEnv) :
    Except VoiceError String × Option RecognitionConfig :=
  if env.available then
    match env.outcome with
    | RecognitionOutcome.result t =>
      (Except.ok t, some { lang := "en-US", interimResults := false, maxAlternatives := 1 })
    | RecognitionOutcome.error c =>
      (Except.error (VoiceError.recognitionError c),
        some { lang := "en-US", interimResults := false, maxAlternatives := 1 })
  else
    (Except.error VoiceError.recognitionUnsupported, none)

/-- The recorder state of the capture session (`MediaRecorder.state`):
`recording` after `start()` (line 197), `inactive` once stopped. -/
inductive RecState where
  | recording
  | inactive
deriving DecidableEq, Repr

/-- The observable state of one capture session: the recorder state, whether
the audio context is still open, and how many stop transitions the recorder
has performed (each stop transition fires `onstop` once, which is the single
place the pending promise is resolved, lines 184-194). -/
structure CaptureState where
  recorder : RecState
  contextOpen : Bool
  stopTransitions : Nat
deriving DecidableEq, Repr

/-- Session state right after `mediaRecorder.start()` at line 197. -/
def initCapture : CaptureState :=
  { recorder := RecState.recording, contextOpen := true, stopTransitions := 0 }

/-- A call a handler issues against the host objects: `mediaRecorder.stop()`
or `audioContext.close()`. -/
inductive CallAction where
  | stopCall
  | closeCall
deriving DecidableEq, Repr

/-- Platform semantics of `mediaRecorder.stop()`: a recording recorder
transitions to inactive (firing `onstop` once); on an inactive recorder the
call is absorbed with no effect. -/
def recorderStop (s : CaptureState) : CaptureState :=
  match s.recorder with
  | RecState.recording =>
    { recorder := RecState.inactive, contextOpen := s.contextOpen
      stopTransitions := s.stopTransitions + 1 }
  | RecState.inactive => s

/-- Platform semantics of `audioContext.close()`: the context is closed. -/
def contextClose (s : CaptureState) : CaptureState :=
  { recorder := s.recorder, contextOpen := false, stopTransitions := s.stopTransitions }

/-- The `utterance.onend` completion handler (voiceService.ts lines 217-220):
it issues `mediaRecorder.stop()` and `audioContext.close()` unconditionally,
with no check of the recorder state.  Returns the new state and the calls
issued. -/
def onendHandler (s : CaptureState) : CaptureState × List CallAction :=
  (contextClose (recorderStop s), [CallAction.stopCall, CallAction.closeCall])

/-- The timeout safeguard handler (voiceService.ts lines 226-231): only when
`mediaRecorder.state === 'recording'` does it issue the stop and close
calls; otherwise it does nothing. -/
def timeoutHandler (s : CaptureState) : CaptureState × List CallAction :=
  if s.recorder = RecState.recording then
    (contextClose (recorderStop s), [CallAction.stopCall, CallAction.closeCall])
  else
    (s, [])

/-- The two stop paths of the capture session. -/
inductive Handler where
  | onend
  | timeout
deriving DecidableEq, Repr

/-- State effect of executing one handler. -/
def handlerStep (h : Handler) (s : CaptureState) : CaptureState :=
  match h with
  | Handler.onend => (onendHandler s).1
  | Handler.timeout => (timeoutHandler s).1

/-- Executes a sequence of handler firings in order. -/
def runHandlers (hs : List Handler) (s : CaptureState) : CaptureState :=
  List.foldl (fun s h => handlerStep h s) s hs

/-- The timeout safeguard's deadline, `text.length * 100` time units
(voiceService.ts line 231). -/
def timeoutTime (text : String) : Nat :=
  text.length * 100

/-- Timed run of one capture session: the timeout safeguard fires at
`timeoutTime text`; the completion event fires at `onendAt` when given,
never otherwise.  Events execute in time order (the completion event first
on a tie, since the host delivers it before the timer callback of the same
deadline).  Returns the final state and the time of the recorder's stop
transition — the moment the pending promise is resolved via `onstop` —
`none` if the recorder never stopped. -/
def runSession (text : String) (onendAt : Option Nat) : CaptureState × Option Nat :=
  let events : List (Nat × Handler) :=
    match onendAt with
    | none => [(timeoutTime text, Handler.timeout)]
    | some tE =>
      if tE ≤ timeoutTime text then
        [(tE, Handler.onend), (timeoutTime text, Handler.timeout)]
      else
        [(timeoutTime text, Handler.timeout), (tE, Handler.onend)]
  List.foldl
    (fun acc ev =>
      let s' := handlerStep ev.2 acc.1
      let rt := if acc.2 = none ∧ acc.1.stopTransitions < s'.stopTransitions
                then some ev.1 else acc.2
      (s', rt))
    (initCapture, none) events

/-- Invariant of a capture session: before any stop the recorder records
with no transition; afterwards it is inactive having transitioned exactly
once. -/
def captureInv (s : CaptureState) : Prop :=
  (s.recorder = RecState.recording ∧ s.stopTransitions = 0) ∨
    (s.recorder = RecState.inactive ∧ s.stopTransitions = 1)

/-- Environment where both remote providers fail and only the browser
capture pipeline can produce audio. -/
def envBrowserOnly : Env :=
  { apiResp := fun _ => none
    supabaseUrl := none
    supabaseAnonKey := none
    edgeResp := fun _ => none
    speechSynthesisSupported := true
    recordedB64 := fun _ => "UklGRg==" }

/-- Environment where Provider A succeeds with a raw base64 payload. -/
def envProviderARaw : Env :=
  { apiResp := fun _ => some { success := true, audio := some "QUJD" }
    supabaseUrl := none
    supabaseAnonKey := none
    edgeResp := fun _ => none
    speechSynthesisSupported := true
    recordedB64 := fun _ => "UklGRg==" }

/-- Environment where Provider A fails, Provider B is configured and
Provider B answers with a payload that is already a data URL. -/
def envProviderBDataUrl : Env :=
  { apiResp := fun _ => none
    supabaseUrl := some "https://x.supabase.co"
    supabaseAnonKey := some "anon-key"
    edgeResp := fun _ => some { success := true, audio := some "data:audio/mpeg;base64,QUJD" }
    speechSynthesisSupported := true
    recordedB64 := fun _ => "UklGRg==" }

/-! ### Helper lemmas -/

/-- Starting with `q` is preserved by appending to the right. -/
theorem jsStartsWith_append_left (p s q : String) (h : jsStartsWith p q = true) :
    jsStartsWith (p ++ s) q = true := by
  rw [jsStartsWith, String.data_append]
  rw [jsStartsWith] at h
  rw [List.isPrefixOf_iff_prefix] at h ⊢
  exact h.trans (List.prefix_append p.data s.data)

/-- When `p` and `q` are incomparable as character sequences, no right
extension of `p` starts with `q`. -/
theorem jsStartsWith_append_ne (p s q : String)
    (h1 : jsStartsWith p q = false) (h2 : jsStartsWith q p = false) :
    jsStartsWith (p ++ s) q = false := by
  rw [jsStartsWith, String.data_append]
  rw [jsStartsWith] at h1 h2
  rw [← Bool.not_eq_true] at h1 h2 ⊢
  rw [List.isPrefixOf_iff_prefix] at h1 h2 ⊢
  intro hc
  rcases List.prefix_or_prefix_of_prefix hc (List.prefix_append p.data s.data) with h | h
  · exact h1 h
  · exact h2 h

/-- Every result Provider A can deliver is a self-describing data URL. -/
theorem tryProviderA_some_startsWith (env : Env) (req : SynthRequest) (url : String)
    (h : tryProviderA env req = some url) : jsStartsWith url "data:" = true := by
  rw [tryProviderA] at h
  split at h
  · cases h
  · split at h
    · cases h
    · next a _ =>
      split at h
      · split at h
        · next =>
          cases h
          exact jsStartsWith_append_left "data:audio/mpeg;base64," a "data:" (by decide)
        · next hd =>
          cases h
          simp only [Bool.not_eq_true, Bool.not_eq_false'] at hd
          exact hd
      · cases h

/-- Every result Provider B can deliver is a self-describing data URL. -/
theorem tryProviderB_some_startsWith (env : Env) (req : SynthRequest) (url : String)
    (h : tryProviderB env req = some url) : jsStartsWith url "data:" = true := by
  rw [tryProviderB] at h
  split at h
  · cases h
  · split at h
    · cases h
    · next a _ =>
      split at h
      · cases h
        exact jsStartsWith_append_left "data:audio/mpeg;base64," a "data:" (by decide)
      · cases h

/-- With synthesis capability present, the capture pipeline resolves with
the recorded wav data URL. -/
theorem synthesizeWithBrowser_ok (env : Env) (text : String)
    (h : env.speechSynthesisSupported = true) :
    synthesizeWithBrowser env text =
      Except.ok ("data:audio/wav;base64," ++ env.recordedB64 text) := by
  rw [synthesizeWithBrowser, h]
  rfl

/-- When Provider A succeeds with a raw (non-self-describing) payload, the
call returns the wrapped payload after invoking only Provider A. -/
theorem synthesizeSpeech_providerA_raw (env : Env) (text : String) (vid : Option String)
    (opts : Option SynthOptions) (r : RemoteResponse) (a : String)
    (hresp : env.apiResp (mkRequest text vid opts) = some r)
    (hsucc : r.success = true) (haud : r.audio = some a) (hne : a ≠ "")
    (hd : jsStartsWith a "data:" = false) :
    synthesizeSpeech env text vid opts =
      (Except.ok ("data:audio/mpeg;base64," ++ a), [Tier.providerA]) := by
  have htA : tryProviderA env (mkRequest text vid opts) =
      some ("data:audio/mpeg;base64," ++ a) := by
    rw [tryProviderA]
    simp [hresp, haud, hsucc, hd, hne]
  rw [synthesizeSpeech, htA]

/-- When Provider A succeeds with a payload that is already a data URL, the
call returns it unchanged after invoking only Provider A. -/
theorem synthesizeSpeech_providerA_dataUrl (env : Env) (text : String) (vid : Option String)
    (opts : Option SynthOptions) (r : RemoteResponse) (a : String)
    (hresp : env.apiResp (mkRequest text vid opts) = some r)
    (hsucc : r.success = true) (haud : r.audio = some a) (hne : a ≠ "")
    (hd : jsStartsWith a "data:" = true) :
    synthesizeSpeech env text vid opts = (Except.ok a, [Tier.providerA]) := by
  have htA : tryProviderA env (mkRequest text vid opts) = some a := by
    rw [tryProviderA]
    simp [hresp, haud, hsucc, hd, hne]
  rw [synthesizeSpeech, htA]

/-- When Provider A fails, Provider B is configured and succeeds, the call
returns Provider B's payload always wrapped with the MIME prefix. -/
theorem synthesizeSpeech_providerB (env : Env) (text : String) (vid : Option String)
    (opts : Option SynthOptions) (r : RemoteResponse) (a : String)
    (hA : tryProviderA env (mkRequest text vid opts) = none)
    (hcfg : supabaseConfigured env = true)
    (hr : env.edgeResp (mkRequest text vid opts) = some r)
    (hsucc : r.success = true) (ha : r.audio = some a) (hne : a ≠ "") :
    synthesizeSpeech env text vid opts =
      (Except.ok ("data:audio/mpeg;base64," ++ a),
        [Tier.providerA, Tier.providerB]) := by
  have htB : tryProviderB env (mkRequest text vid opts) =
      some ("data:audio/mpeg;base64," ++ a) := by
    rw [tryProviderB]
    simp [hr, ha, hsucc, hne]
  rw [synthesizeSpeech, hA]
  simp [hcfg, htB]

/-- Each stop-path handler preserves the capture invariant. -/
theorem captureInv_handlerStep (h : Handler) (s : CaptureState) (hs : captureInv s) :
    captureInv (handlerStep h s) := by
  rcases hs with ⟨hr, ht⟩ | ⟨hr, ht⟩
  · cases h
    · right
      simp [handlerStep, onendHandler, recorderStop, contextClose, hr, ht]
    · right
      simp [handlerStep, timeoutHandler, recorderStop, contextClose, hr, ht]
  · cases h
    · right
      simp [handlerStep, onendHandler, recorderStop, contextClose, hr, ht]
    · right
      simp [handlerStep, timeoutHandler, recorderStop, contextClose, hr, ht]

/-- Any sequence of stop-path firings preserves the capture invariant. -/
theorem captureInv_runHandlers (hs : List Handler) (s : CaptureState)
    (h : captureInv s) : captureInv (runHandlers hs s) := by
  induction hs generalizing s with
  | nil => exact h
  | cons a l ih => exact ih (handlerStep a s) (captureInv_handlerStep a s h)

/-! ### Claims -/

/-- C2: if Provider A responds with success flag true and a non-empty audio
payload that is not already self-describing, `synthesizeSpeech` returns
exactly that payload prefixed with the MIME data-URL header and invokes
neither Provider B nor the capture pipeline (the tier trace is just
Provider A); a payload already starting with `data:` is returned
unchanged. -/
theorem C2_providerA_success (env : Env) (text : String) (vid : Option String)
    (opts : Option SynthOptions) (r : RemoteResponse) (a : String)
    (hresp : env.apiResp (mkRequest text vid opts) = some r)
    (hsucc : r.success = true) (haud : r.audio = some a) (hne : a ≠ "") :
    (jsStartsWith a "data:" = false →
      synthesizeSpeech env text vid opts =
        (Except.ok ("data:audio/mpeg;base64," ++ a), [Tier.providerA])) ∧
    (jsStartsWith a "data:" = true →
      synthesizeSpeech env text vid opts = (Except.ok a, [Tier.providerA])) :=
  ⟨fun hd => synthesizeSpeech_providerA_raw env text vid opts r a hresp hsucc haud hne hd,
    fun hd => synthesizeSpeech_providerA_dataUrl env text vid opts r a hresp hsucc haud hne hd⟩

/-- C2 witness: in `envProviderARaw` the result is the wrapped payload and
the tier trace is exactly Provider A. -/
theorem C2_witness :
    synthesizeSpeech envProviderARaw "hello" none none =
      (Except.ok ("data:audio/mpeg;base64," ++ "QUJD"), [Tier.providerA]) :=
  (C2_providerA_success envProviderARaw "hello" none none
    { success := true, audio := some "QUJD" } "QUJD" rfl rfl rfl (by decide)).1
    (by decide)

/-- C3: when the completion event never fires, the timeout safeguard fires
at `text.length * 100` time units, finds the recorder still recording,
stops it and closes the audio context: the session resolves at (hence at or
before) `text.length * 100` with exactly one stop transition, the recorder
inactive and the context closed. -/
theorem C3_timeout_resolves (text : String) :
    runSession text none =
      ({ recorder := RecState.inactive, contextOpen := false, stopTransitions := 1 },
        some (text.length * 100)) := rfl

/-- C7: `listVoices` never yields an empty catalog; any erroring, missing
or empty remote voices list yields the built-in fallback catalog of exactly
4 entries with pairwise-distinct ids and non-empty names; a non-empty remote
list is returned as-is. -/
theorem C7_listVoices_total (resp : Option (Option (List Voice))) :
    listVoices resp ≠ [] ∧
    (∀ l, resp = some (some l) → l ≠ [] → listVoices resp = l) ∧
    ((resp = none ∨ resp = some none ∨ resp = some (some [])) →
      listVoices resp = getMockVoices) ∧
    getMockVoices.length = 4 ∧
    (List.map Voice.voice_id getMockVoices).Nodup ∧
    (∀ v, v ∈ getMockVoices → v.name ≠ "") := by
  refine ⟨?_, ?_, ?_, rfl, by decide, by decide⟩
  · match resp with
    | none => decide
    | some none => decide
    | some (some l) =>
      show (if 0 < l.length then l else getMockVoices) ≠ []
      by_cases hl : 0 < l.length
      · rw [if_pos hl]
        intro h
        rw [h] at hl
        simp at hl
      · rw [if_neg hl]
        decide
  · intro l hresp hl
    subst hresp
    show (if 0 < l.length then l else getMockVoices) = l
    rw [if_pos]
    rcases l with _ | ⟨a, l⟩
    · exact absurd rfl hl
    · simp
  · intro h
    rcases h with h | h | h <;> subst h <;> rfl

/-- C7 witness: an empty remote list yields the fallback catalog, which is
not empty. -/
theorem C7_witness :
    listVoices (some (some [])) = getMockVoices ∧ listVoices (some (some [])) ≠ [] :=
  ⟨(C7_listVoices_total (some (some []))).2.2.1 (Or.inr (Or.inr rfl)),
    (C7_listVoices_total (some (some []))).1⟩

/-- C8: without recognition capability, `recognizeSpeech` rejects with the
unsupported-environment error and no session is created; with capability,
the single session is configured with language `en-US`,
`interimResults = false` and `maxAlternatives = 1`, a result event resolves
with the first final transcript, and an error event rejects with an error
carrying the session's error code. -/
theorem C8_recognizeSpeech_contract (env : RecognitionEnv) :
    (env.available = false →
      recognizeSpeech env = (Except.error VoiceError.recognitionUnsupported, none)) ∧
    (env.available = true →
      (recognizeSpeech env).2 =
        some { lang := "en-US", interimResults := false, maxAlternatives := 1 } ∧
      (∀ t, env.outcome = RecognitionOutcome.result t →
        (recognizeSpeech env).1 = Except.ok t) ∧
      (∀ c, env.outcome = RecognitionOutcome.error c →
        (recognizeSpeech env).1 = Except.error (VoiceError.recognitionError c))) := by
  constructor
  · intro h
    rw [recognizeSpeech, h]
    rfl
  · intro h
    refine ⟨?_, ?_, ?_⟩
    · rw [recognizeSpeech, h]
      cases env.outcome <;> rfl
    · intro t ht
      rw [recognizeSpeech, h, ht]
      rfl
    · intro c hc
      rw [recognizeSpeech, h, hc]
      rfl

/-- C8 witness: with capability absent the call rejects before any session
exists. -/
theorem C8_witness :
    recognizeSpeech { available := false, outcome := RecognitionOutcome.result "hi" } =
      (Except.error VoiceError.recognitionUnsupported, none) :=
  (C8_recognizeSpeech_contract
    { available := false, outcome := RecognitionOutcome.result "hi" }).1 rfl

/-- C10: no non-empty-text precondition is checked: for the empty string the
timeout safeguard is scheduled at 0 time units, the capture session stops
the recorder immediately (one stop transition, resolution at time 0), and
with synthesis capability present the pipeline resolves with a recording
rather than hanging or rejecting. -/
theorem C10_empty_text (env : Env) (h : env.speechSynthesisSupported = true) :
    timeoutTime "" = 0 ∧
    runSession "" none =
      ({ recorder := RecState.inactive, contextOpen := false, stopTransitions := 1 },
        some 0) ∧
    synthesizeWithBrowser env "" =
      Except.ok ("data:audio/wav;base64," ++ env.recordedB64 "") :=
  ⟨rfl, rfl, synthesizeWithBrowser_ok env "" h⟩

/-- C10 witness: the empty-text behavior at a concrete environment. -/
theorem C10_witness :
    timeoutTime "" = 0 ∧
    runSession "" none =
      ({ recorder := RecState.inactive, contextOpen := false, stopTransitions := 1 },
        some 0) ∧
    synthesizeWithBrowser envBrowserOnly "" =
      Except.ok ("data:audio/wav;base64," ++ envBrowserOnly.recordedB64 "") :=
  C10_empty_text envBrowserOnly rfl

/-- C1: for every non-empty text, when speech synthesis capability is
present `synthesizeSpeech` resolves with a playable self-describing audio
resource (a `data:` URL) and never rejects; the only error that can
propagate to a caller is the unsupported-environment rejection from the
final browser capture tier, which occurs only when the capability is
absent. -/
theorem C1_synthesize_error_policy (env : Env) (text : String) (vid : Option String)
    (opts : Option SynthOptions) :
    (text ≠ "" → env.speechSynthesisSupported = true →
      ∃ url, (synthesizeSpeech env text vid opts).1 = Except.ok url ∧
        jsStartsWith url "data:" = true) ∧
    (∀ e, (synthesizeSpeech env text vid opts).1 = Except.error e →
      e = VoiceError.synthesisUnsupported ∧ env.speechSynthesisSupported = false ∧
      List.getLast? (synthesizeSpeech env text vid opts).2 = some Tier.browserCapture) := by
  have hbrowser : ∀ tiers : List Tier,
      (∃ url, (synthesizeWithBrowser env text, tiers).1 = Except.ok url ∧
        jsStartsWith url "data:" = true) ∨
      ((synthesizeWithBrowser env text, tiers).1 =
        Except.error VoiceError.synthesisUnsupported ∧
        env.speechSynthesisSupported = false) := by
    intro tiers
    by_cases hsupp : env.speechSynthesisSupported = true
    · left
      refine ⟨"data:audio/wav;base64," ++ env.recordedB64 text, ?_, ?_⟩
      · exact congrArg Except.ok (congrArg _ rfl) ▸ synthesizeWithBrowser_ok env text hsupp
      · exact jsStartsWith_append_left "data:audio/wav;base64," _ "data:" (by decide)
    · rw [Bool.not_eq_true] at hsupp
      right
      constructor
      · show synthesizeWithBrowser env text = _
        rw [synthesizeWithBrowser, hsupp]
        rfl
      · exact hsupp
  have hmain :
      (∃ url, (synthesizeSpeech env text vid opts).1 = Except.ok url ∧
        jsStartsWith url "data:" = true) ∨
      ((synthesizeSpeech env text vid opts).1 =
        Except.error VoiceError.synthesisUnsupported ∧
        env.speechSynthesisSupported = false ∧
        List.getLast? (synthesizeSpeech env text vid opts).2 =
          some Tier.browserCapture) := by
    rcases htA : tryProviderA env (mkRequest text vid opts) with _ | url
    · by_cases hcfg : supabaseConfigured env = true
      · rcases htB : tryProviderB env (mkRequest text vid opts) with _ | url
        · have heq : synthesizeSpeech env text vid opts =
              (synthesizeWithBrowser env text,
                [Tier.providerA, Tier.providerB, Tier.browserCapture]) := by
            rw [synthesizeSpeech, htA]
            simp [hcfg, htB]
          rw [heq]
          rcases hbrowser [Tier.providerA, Tier.providerB, Tier.browserCapture] with h | h
          · exact Or.inl h
          · exact Or.inr ⟨h.1, h.2, rfl⟩
        · left
          refine ⟨url, ?_, tryProviderB_some_startsWith env _ url htB⟩
          rw [synthesizeSpeech, htA]
          simp [hcfg, htB]
      · rw [Bool.not_eq_true] at hcfg
        have heq : synthesizeSpeech env text vid opts =
            (synthesizeWithBrowser env text,
              [Tier.providerA, Tier.browserCapture]) := by
          rw [synthesizeSpeech, htA]
          simp [hcfg]
        rw [heq]
        rcases hbrowser [Tier.providerA, Tier.browserCapture] with h | h
        · exact Or.inl h
        · exact Or.inr ⟨h.1, h.2, rfl⟩
    · left
      refine ⟨url, ?_, tryProviderA_some_startsWith env _ url htA⟩
      rw [synthesizeSpeech, htA]
  constructor
  · intro _ hsupp
    rcases hmain with h | ⟨_, hfalse, _⟩
    · exact h
    · rw [hsupp] at hfalse
      cases hfalse
  · intro e he
    rcases hmain with ⟨url, hok, _⟩ | ⟨herr, hfalse, hlast⟩
    · rw [he] at hok
      cases hok
    · rw [he] at herr
      exact ⟨(Except.error.inj herr).symm ▸ rfl, hfalse, hlast⟩

/-- C1 witness: with capability present and both providers failing, a
concrete call resolves with a data URL. -/
theorem C1_witness :
    ("hello" : String) ≠ "" ∧
    ∃ url, (synthesizeSpeech envBrowserOnly "hello" none none).1 = Except.ok url ∧
      jsStartsWith url "data:" = true :=
  ⟨by decide,
    (C1_synthesize_error_policy envBrowserOnly "hello" none none).1 (by decide) rfl⟩

/-- C4 counterexample: the claim says both stop paths check the recording
state before acting, so a second execution is a no-op.  But at the stopped
session state (recorder inactive, context closed, one stop transition
performed), the completion handler is not a no-op: it still issues the stop
and close calls — only the timeout safeguard issues none. -/
theorem C4_counterexample :
    onendHandler { recorder := RecState.inactive, contextOpen := false, stopTransitions := 1 } ≠
      ({ recorder := RecState.inactive, contextOpen := false, stopTransitions := 1 }, []) ∧
    (onendHandler
      { recorder := RecState.inactive, contextOpen := false, stopTransitions := 1 }).2 =
      [CallAction.stopCall, CallAction.closeCall] ∧
    (timeoutHandler
      { recorder := RecState.inactive, contextOpen := false, stopTransitions := 1 }).2 =
      [] := by
  decide

/-- C4 amended: only the timeout safeguard checks the recording state
before acting — from a stopped session it is a complete no-op, while the
completion handler still issues the stop and close calls (which the platform
absorbs, leaving the state unchanged apart from the already-closed context).
Under any sequence of the two handlers from the initial recording state the
recorder performs at most one stop transition — so the pending promise,
resolved once per stop transition, is never resolved twice — and both
firing orders end in the same final state. -/
theorem C4_amended_single_stop (s : CaptureState) (hs : List Handler) :
    (s.recorder = RecState.inactive → timeoutHandler s = (s, [])) ∧
    (s.recorder = RecState.inactive →
      (onendHandler s).1 = contextClose s ∧
      (onendHandler s).2 = [CallAction.stopCall, CallAction.closeCall]) ∧
    (runHandlers hs initCapture).stopTransitions ≤ 1 ∧
    runHandlers [Handler.onend, Handler.timeout] initCapture =
      runHandlers [Handler.timeout, Handler.onend] initCapture := by
  refine ⟨?_, ?_, ?_, by decide⟩
  · intro h
    simp [timeoutHandler, h]
  · intro h
    exact ⟨by simp [onendHandler, recorderStop, h], rfl⟩
  · have hinv := captureInv_runHandlers hs initCapture (Or.inl ⟨rfl, rfl⟩)
    rcases hinv with ⟨_, ht⟩ | ⟨_, ht⟩
    · rw [ht]
      exact Nat.zero_le 1
    · rw [ht]

/-- C4 witness: the timeout safeguard is a no-op on the stopped state, and
a concrete handler sequence performs at most one stop transition. -/
theorem C4_witness :
    timeoutHandler { recorder := RecState.inactive, contextOpen := false, stopTransitions := 1 } =
      ({ recorder := RecState.inactive, contextOpen := false, stopTransitions := 1 }, []) ∧
    (runHandlers [Handler.timeout, Handler.onend] initCapture).stopTransitions ≤ 1 :=
  ⟨(C4_amended_single_stop
      { recorder := RecState.inactive, contextOpen := false, stopTransitions := 1 }
      [Handler.timeout, Handler.onend]).1 rfl,
    (C4_amended_single_stop
      { recorder := RecState.inactive, contextOpen := false, stopTransitions := 1 }
      [Handler.timeout, Handler.onend]).2.2.1⟩

/-- C5: Provider B is attempted only when the endpoint and credential are
both present and free of the placeholder marker; when Provider A fails
(it fails exactly when the call throws, the success flag is falsy, or the
audio payload is missing or empty) and Provider B is unconfigured by that
test, the browser capture pipeline is invoked directly, receiving only the
text argument. -/
theorem C5_providerB_precondition (env : Env) (text : String) (vid : Option String)
    (opts : Option SynthOptions) :
    (Tier.providerB ∈ (synthesizeSpeech env text vid opts).2 →
      supabaseConfigured env = true) ∧
    (tryProviderA env (mkRequest text vid opts) = none →
      supabaseConfigured env = false →
      synthesizeSpeech env text vid opts =
        (synthesizeWithBrowser env text, [Tier.providerA, Tier.browserCapture])) ∧
    (tryProviderA env (mkRequest text vid opts) = none ↔
      (env.apiResp (mkRequest text vid opts) = none ∨
        ∃ r, env.apiResp (mkRequest text vid opts) = some r ∧
          (r.success = false ∨ r.audio = none ∨ r.audio = some ""))) := by
  refine ⟨?_, ?_, ?_⟩
  · intro hmem
    rcases htA : tryProviderA env (mkRequest text vid opts) with _ | url
    · by_cases hcfg : supabaseConfigured env = true
      · exact hcfg
      · rw [Bool.not_eq_true] at hcfg
        rw [synthesizeSpeech, htA] at hmem
        simp [hcfg] at hmem
    · rw [synthesizeSpeech, htA] at hmem
      simp at hmem
  · intro htA hcfg
    rw [synthesizeSpeech, htA]
    simp [hcfg]
  · constructor
    · intro h
      rcases henv : env.apiResp (mkRequest text vid opts) with _ | r
      · exact Or.inl rfl
      · right
        refine ⟨r, rfl, ?_⟩
        rw [tryProviderA] at h
        rcases haud : r.audio with _ | a
        · exact Or.inr (Or.inl rfl)
        · simp only [henv, haud] at h
          by_cases hsucc : r.success = true
          · by_cases hae : a = ""
            · exact Or.inr (Or.inr (by rw [hae]))
            · rw [hsucc] at h
              simp [hae] at h
              split at h <;> cases h
          · rw [Bool.not_eq_true] at hsucc
            exact Or.inl hsucc
    · intro h
      rw [tryProviderA]
      rcases h with h | ⟨r, hr, hcase⟩
      · rw [h]
      · rcases haud : r.audio with _ | a
        · simp [hr, haud]
        · rcases hcase with hs | ha | ha
          · simp [hr, haud, hs]
          · rw [ha] at haud
            cases haud
          · rw [ha] at haud
            cases haud
            simp [hr, ha]

/-- C5 witness: with Provider A failing and Provider B unconfigured, a
concrete call goes straight to the capture pipeline with only the text. -/
theorem C5_witness :
    synthesizeSpeech envBrowserOnly "hi" none none =
      (synthesizeWithBrowser envBrowserOnly "hi",
        [Tier.providerA, Tier.browserCapture]) :=
  (C5_providerB_precondition envBrowserOnly "hi" none none).2.1 rfl rfl

/-- C6 counterexample: the claim says Provider B's success path returns a
payload unchanged when it is already self-describing.  In
`envProviderBDataUrl`, Provider B answers with a payload that already is a
data URL, yet the result is that payload wrapped a second time, not the
payload itself. -/
theorem C6_counterexample :
    (synthesizeSpeech envProviderBDataUrl "hi" none none).1 =
      Except.ok ("data:audio/mpeg;base64," ++ "data:audio/mpeg;base64,QUJD") ∧
    "data:audio/mpeg;base64," ++ "data:audio/mpeg;base64,QUJD" ≠
      "data:audio/mpeg;base64,QUJD" :=
  ⟨rfl, by decide⟩

/-- C6 amended: Provider B's success path does not perform Provider A's
normalization check: every successful Provider B payload — self-describing
or not — is returned with the MIME data-URL prefix prepended
unconditionally. -/
theorem C6_amended_always_prefixed (env : Env) (text : String) (vid : Option String)
    (opts : Option SynthOptions) (r : RemoteResponse) (a : String)
    (hA : tryProviderA env (mkRequest text vid opts) = none)
    (hcfg : supabaseConfigured env = true)
    (hr : env.edgeResp (mkRequest text vid opts) = some r)
    (hsucc : r.success = true) (ha : r.audio = some a) (hne : a ≠ "") :
    (synthesizeSpeech env text vid opts).1 =
      Except.ok ("data:audio/mpeg;base64," ++ a) := by
  rw [synthesizeSpeech_providerB env text vid opts r a hA hcfg hr hsucc ha hne]

/-- C6 witness: the amended behavior at the concrete environment where the
payload already is a data URL. -/
theorem C6_witness :
    (synthesizeSpeech envProviderBDataUrl "hi" none none).1 =
      Except.ok ("data:audio/mpeg;base64," ++ "data:audio/mpeg;base64,QUJD") :=
  C6_amended_always_prefixed envProviderBDataUrl "hi" none none
    { success := true, audio := some "data:audio/mpeg;base64,QUJD" }
    "data:audio/mpeg;base64,QUJD" rfl (by decide) rfl rfl rfl (by decide)

/-- C9: the MIME tag depends on the producing tier: both remote tiers wrap
raw payloads as `audio/mpeg`, while the browser capture tier encodes its
recording as `audio/wav` — so a capture-tier result never carries the
remote tiers' `audio/mpeg` tag. -/
theorem C9_mime_by_provenance (env : Env) (text : String) (vid : Option String)
    (opts : Option SynthOptions) :
    (∀ r a, env.apiResp (mkRequest text vid opts) = some r → r.success = true →
      r.audio = some a → a ≠ "" → jsStartsWith a "data:" = false →
      (synthesizeSpeech env text vid opts).1 =
        Except.ok ("data:audio/mpeg;base64," ++ a)) ∧
    (∀ r a, tryProviderA env (mkRequest text vid opts) = none →
      supabaseConfigured env = true →
      env.edgeResp (mkRequest text vid opts) = some r → r.success = true →
      r.audio = some a → a ≠ "" →
      (synthesizeSpeech env text vid opts).1 =
        Except.ok ("data:audio/mpeg;base64," ++ a)) ∧
    (env.speechSynthesisSupported = true →
      synthesizeWithBrowser env text =
        Except.ok ("data:audio/wav;base64," ++ env.recordedB64 text)) ∧
    (∀ s, synthesizeWithBrowser env text = Except.ok s →
      jsStartsWith s "data:audio/wav;base64," = true ∧
      jsStartsWith s "data:audio/mpeg;base64," = false) := by
  refine ⟨?_, ?_, synthesizeWithBrowser_ok env text, ?_⟩
  · intro r a hresp hsucc haud hne hd
    rw [synthesizeSpeech_providerA_raw env text vid opts r a hresp hsucc haud hne hd]
  · intro r a hA hcfg hr hsucc ha hne
    rw [synthesizeSpeech_providerB env text vid opts r a hA hcfg hr hsucc ha hne]
  · intro s hs
    rw [synthesizeWithBrowser] at hs
    by_cases hsupp : env.speechSynthesisSupported = true
    · rw [hsupp] at hs
      simp only [if_true] at hs
      cases hs
      constructor
      · exact jsStartsWith_append_left "data:audio/wav;base64," _ _ (by decide)
      · exact jsStartsWith_append_ne "data:audio/wav;base64," _ "data:audio/mpeg;base64,"
          (by decide) (by decide)
    · rw [Bool.not_eq_true] at hsupp
      rw [hsupp] at hs
      simp at hs

/-- C9 witness: a concrete capture-tier result carries the `audio/wav` tag
and not the remote tiers' `audio/mpeg` tag. -/
theorem C9_witness :
    jsStartsWith ("data:audio/wav;base64," ++ envBrowserOnly.recordedB64 "hey")
      "data:audio/wav;base64," = true ∧
    jsStartsWith ("data:audio/wav;base64," ++ envBrowserOnly.recordedB64 "hey")
      "data:audio/mpeg;base64," = false :=
  (C9_mime_by_provenance envBrowserOnly "hey" none none).2.2.2
    ("data:audio/wav;base64," ++ envBrowserOnly.recordedB64 "hey") rfl

end VoiceService
